import Mathlib

/-!
Shallow embedding of the notebook dock of the `qgis_notebook` plugin
(`src/qgis_notebook/dialogs/notebook_dock.py`), covering the execution
engine (`_execute_code_sync`, `_execute_cell`), the namespace lifecycle
(`__init__`, `_setup_namespace`, `_new_notebook`), notebook loading and
rendering (`_load_notebook`, `_render_notebook`, `_create_cell_widget`),
cell deletion (`_delete_cell`, `_update_cell_indices`) and the notebook
source save format (`_save_to_path`, `NotebookCellWidget._setup_ui`).
-/

namespace QgisNotebook

/-- Python runtime values as far as the namespace dictionary stores them:
`None`, numbers, strings, and opaque objects (modules, classes, the host
interface) tagged by their qualified name. -/
inductive PyVal where
  | none
  | int (n : Int)
  | str (s : String)
  | obj (qualname : String)
  deriving DecidableEq, Repr

/-- The execution namespace `self.namespace`: a Python dict from names to
values, embedded as an ordered association list (first hit wins on lookup,
like a dict key). -/
def NS := List (String × PyVal)
  deriving DecidableEq, Repr

/-- Dict assignment `ns[k] = v`: overwrite the existing entry for `k` in
place, or append a fresh one. -/
def NS.set : NS → String → PyVal → NS
  | [], k, v => [(k, v)]
  | (k', v') :: rest, k, v =>
      if k' = k then (k, v) :: rest else (k', v') :: NS.set rest k v

/-- Dict read `ns.get(k)`: the value stored at the first entry for `k`. -/
def NS.get : NS → String → Option PyVal
  | [], _ => Option.none
  | (k', v) :: rest, k => if k' = k then some v else NS.get rest k

/-- What `eval(code, self.namespace)` can do for one code string in one
namespace: produce a value (with the text the evaluation wrote to the
current stdout/stderr streams and the namespace it leaves behind), raise
`SyntaxError` while compiling (no effects yet), or raise another
exception partway (whose formatted traceback `traceback.format_exc()`
would render as `tb`). -/
inductive EvalOutcome where
  | value (v : PyVal) (ns' : NS) (out err : String)
  | syntaxError
  | exn (tb : String) (ns' : NS) (out err : String)
  deriving Repr

/-- What `exec(code, self.namespace)` can do: run to completion or raise. -/
inductive ExecOutcome where
  | ok (ns' : NS) (out err : String)
  | exn (tb : String) (ns' : NS) (out err : String)
  deriving Repr

/-- The semantics the Python runtime gives one code string: its behaviour
under `eval` and under `exec`, as functions of the starting namespace.
The embedding treats these as oracles; `_execute_code_sync` only
dispatches between them. -/
structure Code where
  evalResult : NS → EvalOutcome
  execResult : NS → ExecOutcome

/-- The `(result, stdout, stderr)` triple `_execute_code_sync` returns. -/
structure ExecResult where
  result : Option PyVal
  stdout : String
  stderr : String
  deriving DecidableEq, Repr

/-- Embeds `NotebookDockWidget._execute_code_sync` (notebook_dock.py
1894-1920), minus the stream bookkeeping (`executeCodeSyncFull` below adds
it): try `eval` first; on `SyntaxError` fall back to `exec`; on success
return the captured stdout/stderr texts; on any other exception return
`None`, an empty stdout and the formatted traceback as stderr. -/
def executeCodeSync (code : Code) (ns : NS) : ExecResult × NS :=
  match code.evalResult ns with
  | .value v ns' out err => (⟨some v, out, err⟩, ns')
  | .exn tb ns' _ _ => (⟨Option.none, "", tb⟩, ns')
  | .syntaxError =>
      match code.execResult ns with
      | .ok ns' out err => (⟨Option.none, out, err⟩, ns')
      | .exn tb ns' _ _ => (⟨Option.none, "", tb⟩, ns')

/-- A value `sys.stdout` / `sys.stderr` can hold: the stream object that
was installed before the call (tagged by an arbitrary identifier), or a
fresh `StringIO()` capture buffer with its accumulated contents. -/
inductive Stream where
  | original (id : String)
  | buffer (contents : String)
  deriving DecidableEq, Repr

/-- The process-global stream slots `sys.stdout` and `sys.stderr`. -/
structure SysState where
  stdout : Stream
  stderr : Stream
  deriving DecidableEq, Repr

/-- One call to `_execute_code_sync` seen with the stream bookkeeping:
the returned triple, the namespace left behind, the stream slots while
the user code ran, and the stream slots after the `finally` block. -/
structure SyncCall where
  res : ExecResult
  ns2 : NS
  sysDuring : SysState
  sysAfter : SysState
  deriving Repr

/-- Embeds `NotebookDockWidget._execute_code_sync` (notebook_dock.py
1894-1920) in full: save `old_stdout`/`old_stderr`, install fresh
`StringIO()` buffers, run the eval/exec dispatch (the user code's writes
accumulate in the buffers, so `sysDuring` holds them filled), read
`getvalue()` on success, and restore the saved streams in the `finally`
block on every path. -/
def executeCodeSyncFull (code : Code) (ns : NS) (sys : SysState) : SyncCall :=
  let old_stdout := sys.stdout
  let old_stderr := sys.stderr
  match code.evalResult ns with
  | .value v ns' out err =>
      { res := ⟨some v, out, err⟩, ns2 := ns'
        sysDuring := ⟨.buffer out, .buffer err⟩
        sysAfter := ⟨old_stdout, old_stderr⟩ }
  | .exn tb ns' out err =>
      { res := ⟨Option.none, "", tb⟩, ns2 := ns'
        sysDuring := ⟨.buffer out, .buffer err⟩
        sysAfter := ⟨old_stdout, old_stderr⟩ }
  | .syntaxError =>
      match code.execResult ns with
      | .ok ns' out err =>
          { res := ⟨Option.none, out, err⟩, ns2 := ns'
            sysDuring := ⟨.buffer out, .buffer err⟩
            sysAfter := ⟨old_stdout, old_stderr⟩ }
      | .exn tb ns' out err =>
          { res := ⟨Option.none, "", tb⟩, ns2 := ns'
            sysDuring := ⟨.buffer out, .buffer err⟩
            sysAfter := ⟨old_stdout, old_stderr⟩ }

/-- The text the user code wrote to the stream installed as `sys.stdout`
during the call (the final contents of the stdout capture buffer). -/
def writtenOut (code : Code) (ns : NS) : String :=
  match code.evalResult ns with
  | .value _ _ out _ => out
  | .exn _ _ out _ => out
  | .syntaxError =>
      match code.execResult ns with
      | .ok _ out _ => out
      | .exn _ _ out _ => out

/-- The text the user code wrote to the stream installed as `sys.stderr`
during the call. -/
def writtenErr (code : Code) (ns : NS) : String :=
  match code.evalResult ns with
  | .value _ _ _ err => err
  | .exn _ _ _ err => err
  | .syntaxError =>
      match code.execResult ns with
      | .ok _ _ err => err
      | .exn _ _ _ err => err

/-! String helpers used by the save/load path, each embedding one Python
string method. -/

/-- Python `s.rstrip("\n")`: drop trailing newline characters. -/
def pyRstripNL (s : String) : String :=
  String.mk ((s.data.reverse.dropWhile (fun c => c = '\n')).reverse)

/-- Python `str` whitespace for `.strip()`. -/
def isPySpace (c : Char) : Bool :=
  c = ' ' || c = '\t' || c = '\n' || c = '\r' || c = '\x0b' || c = '\x0c'

/-- Python `s.strip()`: drop whitespace at both ends. -/
def pyStrip (s : String) : String :=
  String.mk (((s.data.dropWhile isPySpace).reverse.dropWhile isPySpace).reverse)

/-- Character-level worker for Python `s.split("\n")`. -/
def splitNLAux : List Char → List Char → List (List Char)
  | [], acc => [acc.reverse]
  | c :: cs, acc =>
      if c = '\n' then acc.reverse :: splitNLAux cs []
      else splitNLAux cs (c :: acc)

/-- Python `s.split("\n")` (single-character separator form). -/
def pySplitNL (s : String) : List String :=
  (splitNLAux s.data []).map String.mk

/-- Python `"".join(parts)`. -/
def pyJoin : List String → String
  | [] => ""
  | s :: rest => s ++ pyJoin rest

/-- The source list built by `_save_to_path` (notebook_dock.py 2121-2126):
`[line + "\n" for line in lines[:-1]] + [lines[-1]] if lines else []`. -/
def markLines : List String → List String
  | [] => []
  | [l] => [l]
  | l :: ls => (l ++ "\n") :: markLines ls

/-- The `"source"` value `_save_to_path` stores for a cell whose editor
holds `source`: split on newlines, re-append `"\n"` to every line but the
last. -/
def saveSourceLines (source : String) : List String :=
  markLines (pySplitNL source)

/-- How `NotebookCellWidget._setup_ui` (notebook_dock.py 682-687) turns a
stored source list back into the editor text: join the list, then strip
trailing newlines. -/
def loadSource (source : List String) : String :=
  pyRstripNL (pyJoin source)

/-- Character-level image of `markLines`. -/
def markLinesC : List (List Char) → List (List Char)
  | [] => []
  | [l] => [l]
  | l :: ls => (l ++ ['\n']) :: markLinesC ls

/-! The dock widget state and its operations. -/

/-- A cell's `"source"` value in the notebook JSON: a plain string or a
list of lines (the widget joins a list, `_setup_ui` line 684-685). -/
inductive SourceVal where
  | str (s : String)
  | list (ls : List String)
  deriving DecidableEq, Repr

/-- `source = "".join(source) if isinstance(source, list) else source`. -/
def SourceVal.toText : SourceVal → String
  | .str s => s
  | .list ls => pyJoin ls

/-- One entry of the document's `"cells"` list, restricted to the fields
the dock reads when building widgets. -/
structure CellData where
  cell_type : String
  source : SourceVal
  deriving DecidableEq, Repr

/-- The notebook document: `notebook_data.get("cells", [])` is modelled
by `cells` directly (a document without the key reads as `[]`). -/
structure Notebook where
  cells : List CellData
  deriving DecidableEq, Repr

/-- A `NotebookCellWidget`, restricted to the state the claims touch:
its type, the editor text, the displayed output, and `cell_index`
(shown to the user as `[cell_index + 1]`). -/
structure CellWidget where
  cell_type : String
  source : String
  output : Option ExecResult
  index : Nat
  deriving DecidableEq, Repr

/-- Embeds `NotebookCellWidget.__init__` / `_setup_ui` on the modelled
fields: take the cell type, join a list-valued source and strip trailing
newlines, start with no output. -/
def mkCellWidget (cd : CellData) (index : Nat) : CellWidget :=
  { cell_type := cd.cell_type
    source := pyRstripNL cd.source.toText
    output := Option.none
    index := index }

/-- The dock's state: `nsd` embeds `self.namespace` (`namespace` is a
Lean keyword), `messages` logs the `QMessageBox` dialogs shown, newest
last. -/
structure DockState where
  notebook_path : Option String
  notebook_data : Option Notebook
  cell_widgets : List CellWidget
  nsd : NS
  status : String
  is_dirty : Bool
  messages : List String
  deriving Repr

/-- Embeds `_clear_cells` (notebook_dock.py 1662-1667). -/
def clearCells (st : DockState) : DockState :=
  { st with cell_widgets := [] }

/-- Embeds `_create_cell_widget` (notebook_dock.py 1722-1740) on the
modelled state: build the widget and insert it at `index` into the
widget list (`self.cell_widgets.insert(index, cell_widget)`). -/
def createCellWidget (st : DockState) (cd : CellData) (index : Nat) : DockState :=
  { st with cell_widgets := st.cell_widgets.insertIdx index (mkCellWidget cd index) }

/-- Embeds `_render_notebook` (notebook_dock.py 1708-1720): clear all
widgets; if no document is loaded return; otherwise create one widget
per entry of `cells` at its enumeration index and report the count. -/
def renderNotebook (st : DockState) : DockState :=
  let st1 := clearCells st
  match st1.notebook_data with
  | Option.none => st1
  | some nb =>
      let st2 := nb.cells.enum.foldl (fun s ic => createCellWidget s ic.2 ic.1) st1
      { st2 with status := "Loaded " ++ toString nb.cells.length ++ " cells" }

/-- What `json.load` produced for the opened file: a decode error or a
notebook document. -/
inductive FileContent where
  | invalidJson (msg : String)
  | notebook (nb : Notebook)
  deriving Repr

/-- Embeds `_load_notebook` (notebook_dock.py 1690-1706). On a decode
error `self.notebook_data = json.load(f)` never assigns, so only an
error dialog is shown; on success the document and path are stored, the
notebook is rendered and the dirty flag cleared. -/
def loadNotebook (st : DockState) (path : String) (content : FileContent) : DockState :=
  match content with
  | .invalidJson msg =>
      { st with messages := st.messages ++ ["Invalid notebook format:\n" ++ msg] }
  | .notebook nb =>
      let st1 := { st with notebook_data := some nb, notebook_path := some path }
      let st2 := renderNotebook st1
      { st2 with is_dirty := false, status := "Loaded: " ++ path }

/-- Embeds `_execute_cell` (notebook_dock.py 1922-1979). `sem` is the
Python semantics of source strings (see `Code`). Out-of-range index,
non-code cell and blank source return the state unchanged; otherwise the
cell's code runs against `self.namespace`, the cell's output is set from
the returned triple and the status reports success or errors. -/
def executeCell (sem : String → Code) (st : DockState) (i : Nat) : DockState :=
  if h : i < st.cell_widgets.length then
    let w := st.cell_widgets.get ⟨i, h⟩
    if w.cell_type = "code" then
      if pyStrip w.source = "" then st
      else
        let r := executeCodeSync (sem w.source) st.nsd
        let w' := { w with output := some r.1 }
        { st with
            cell_widgets := st.cell_widgets.set i w'
            nsd := r.2
            status :=
              if r.1.stderr ≠ "" then
                "Cell [" ++ toString (i + 1) ++ "] completed with errors"
              else
                "Cell [" ++ toString (i + 1) ++ "] executed successfully" }
    else st
  else st

/-- The namespace `_execute_cell` hands to `_execute_code_sync` when its
guards pass, `none` when the call returns without executing anything. -/
def cellRunNS (st : DockState) (i : Nat) : Option NS :=
  if h : i < st.cell_widgets.length then
    let w := st.cell_widgets.get ⟨i, h⟩
    if w.cell_type = "code" then
      if pyStrip w.source = "" then Option.none
      else some st.nsd
    else Option.none
  else Option.none

/-- Embeds `_update_cell_indices` (notebook_dock.py 1746-1750): renumber
every widget to its position in the list. -/
def updateCellIndices (ws : List CellWidget) : List CellWidget :=
  ws.enum.map (fun iw => { iw.2 with index := iw.1 })

/-- Embeds `_delete_cell` (notebook_dock.py 1822-1850). `confirmYes`
stands for the user's answer to the confirmation dialog. With no
document or at most one widget, a warning is shown and nothing changes;
otherwise the addressed cell is removed from the document and the widget
list and the remaining widgets are renumbered. -/
def deleteCell (st : DockState) (i : Nat) (confirmYes : Bool) : DockState :=
  if st.notebook_data = Option.none ∨ st.cell_widgets.length ≤ 1 then
    { st with messages := st.messages ++ ["Cannot delete the last cell."] }
  else if ¬ confirmYes then st
  else
    let nd :=
      match st.notebook_data with
      | some nb =>
          some { nb with cells :=
            if i < nb.cells.length then nb.cells.eraseIdx i else nb.cells }
      | Option.none => Option.none
    let ws := updateCellIndices (st.cell_widgets.eraseIdx i)
    { st with notebook_data := nd, cell_widgets := ws, is_dirty := true,
              status := "Deleted cell [" ++ toString (i + 1) ++ "]" }

/-! Namespace setup and `_new_notebook`. -/

/-- Which of `_setup_namespace`'s `try: import` blocks succeed in the
host process (each block is atomic: its imports sit at its top). -/
structure ImportEnv where
  qgisOk : Bool
  processingOk : Bool
  commonOk : Bool
  numpyOk : Bool
  pandasOk : Bool
  deriving DecidableEq, Repr

/-- The assignments of the qgis block (notebook_dock.py 1079-1097), in
source order. -/
def qgisBindings : List (String × PyVal) :=
  [("qgis", .obj "qgis"),
   ("QgsProject", .obj "qgis.core.QgsProject"),
   ("iface", .obj "qgis.utils.iface"),
   ("QgsVectorLayer", .obj "qgis.core.QgsVectorLayer"),
   ("QgsRasterLayer", .obj "qgis.core.QgsRasterLayer"),
   ("QgsGeometry", .obj "qgis.core.QgsGeometry"),
   ("QgsFeature", .obj "qgis.core.QgsFeature"),
   ("QgsPointXY", .obj "qgis.core.QgsPointXY"),
   ("QgsCoordinateReferenceSystem", .obj "qgis.core.QgsCoordinateReferenceSystem"),
   ("QgsField", .obj "qgis.core.QgsField"),
   ("QgsFields", .obj "qgis.core.QgsFields"),
   ("QgsWkbTypes", .obj "qgis.core.QgsWkbTypes"),
   ("QgsMapLayerType", .obj "qgis.core.QgsMapLayerType"),
   ("QgsProcessing", .obj "qgis.core.QgsProcessing"),
   ("QgsApplication", .obj "qgis.core.QgsApplication")]

/-- The assignments of the common-modules block (lines 1116-1119). -/
def commonBindings : List (String × PyVal) :=
  [("os", .obj "os"), ("sys", .obj "sys"),
   ("json", .obj "json"), ("math", .obj "math")]

/-- Sequential dict assignments. -/
def nsSetAll (ns : NS) (kvs : List (String × PyVal)) : NS :=
  kvs.foldl (fun n kv => n.set kv.1 kv.2) ns

/-- The qgis import block of `_setup_namespace` (lines 1074-1099). -/
def qgisStep (env : ImportEnv) (ns : NS) : NS :=
  if env.qgisOk then nsSetAll ns qgisBindings else ns

/-- The processing import block (lines 1102-1107). -/
def processingStep (env : ImportEnv) (ns : NS) : NS :=
  if env.processingOk then ns.set "processing" (.obj "processing") else ns

/-- The common-modules import block (lines 1110-1121). -/
def commonStep (env : ImportEnv) (ns : NS) : NS :=
  if env.commonOk then nsSetAll ns commonBindings else ns

/-- The numpy import block (lines 1124-1130). -/
def numpyStep (env : ImportEnv) (ns : NS) : NS :=
  if env.numpyOk then
    nsSetAll ns [("np", .obj "numpy"), ("numpy", .obj "numpy")] else ns

/-- The pandas import block (lines 1132-1138). -/
def pandasStep (env : ImportEnv) (ns : NS) : NS :=
  if env.pandasOk then
    nsSetAll ns [("pd", .obj "pandas"), ("pandas", .obj "pandas")] else ns

/-- Embeds `_setup_namespace` (notebook_dock.py 1071-1138): each import
block, when its imports succeed, stores its module/class bindings into
`self.namespace` in source order. -/
def setupNamespace (env : ImportEnv) (ns : NS) : NS :=
  pandasStep env (numpyStep env (commonStep env (processingStep env (qgisStep env ns))))

/-- The fresh dict `{"__name__": "__main__", "__doc__": None}` built in
`__init__` (lines 1059-1062) and `_new_notebook` (line 2162). -/
def baseNamespace : NS :=
  [("__name__", .str "__main__"), ("__doc__", .none)]

/-- Embeds `_create_empty_notebook` (notebook_dock.py 2169-2196),
restricted to the cell fields the model carries. -/
def emptyNotebook : Notebook :=
  { cells :=
      [{ cell_type := "markdown",
         source := .str "# New Notebook\n\nWelcome to your new Jupyter notebook!" },
       { cell_type := "code",
         source := .str "# Enter your Python code here\nprint(\x27Hello, QGIS!\x27)" }] }

/-- Embeds `_new_notebook` (notebook_dock.py 2151-2167). `proceed`
stands for `_check_unsaved_changes()`: when the user cancels, nothing
happens; otherwise a fresh empty document is installed, `self.namespace`
is rebound to a fresh base dict and re-populated by `_setup_namespace`,
and the notebook is rendered. -/
def newNotebook (env : ImportEnv) (st : DockState) (proceed : Bool) : DockState :=
  if ¬ proceed then st
  else
    let st1 := { st with notebook_data := some emptyNotebook,
                         notebook_path := Option.none }
    let st2 := { st1 with nsd := setupNamespace env baseNamespace }
    let st3 := renderNotebook st2
    { st3 with is_dirty := false, status := "New notebook created" }

/-- Every name the two dunder seeds and `_setup_namespace` can ever
install (all import blocks taken together). -/
def installedNames : List String :=
  ["__name__", "__doc__"] ++ qgisBindings.map Prod.fst ++ ["processing"]
    ++ commonBindings.map Prod.fst ++ ["np", "numpy", "pd", "pandas"]

/-! Concrete sample data used by witnesses. -/

/-- The semantics of the expression string `"3"`: `eval` yields `3` with
no output and no namespace change; `exec` would discard the value. -/
def codeExprLit : Code :=
  { evalResult := fun ns => .value (.int 3) ns "" ""
    execResult := fun ns => .ok ns "" "" }

/-- The semantics of the statement string `"print(\x27hi\x27)\n1/0"`:
not an expression, so `eval` raises `SyntaxError`; `exec` prints
`hi` to stdout and then raises `ZeroDivisionError`. -/
def codePrintRaise : Code :=
  { evalResult := fun _ => .syntaxError
    execResult := fun ns =>
      .exn "Traceback (most recent call last): ZeroDivisionError: division by zero" ns "hi\n" "" }

/-- The semantics of the assignment string `"x = 1"`: a statement, so
`eval` raises `SyntaxError`; `exec` binds `x` in the namespace. -/
def codeAssignX : Code :=
  { evalResult := fun _ => .syntaxError
    execResult := fun ns => .ok (ns.set "x" (.int 1)) "" "" }

/-- A sample Python semantics: `"x = 1"` behaves as `codeAssignX`,
everything else as an inert statement. -/
def sampleSem (source : String) : Code :=
  if source = "x = 1" then codeAssignX
  else { evalResult := fun _ => .syntaxError, execResult := fun ns => .ok ns "" "" }

/-- A two-cell document: one markdown cell, one code cell. -/
def sampleNotebook : Notebook :=
  { cells :=
      [{ cell_type := "markdown", source := .str "# Title" },
       { cell_type := "code", source := .list ["x = 1\n", "x"] }] }

/-- A dock state holding `sampleNotebook`, not yet rendered. -/
def sampleState : DockState :=
  { notebook_path := some "/tmp/sample.ipynb"
    notebook_data := some sampleNotebook
    cell_widgets := []
    nsd := baseNamespace
    status := ""
    is_dirty := false
    messages := [] }

/-- A dock state with two code-cell widgets, `"x = 1"` then `"x"`. -/
def twoCellState : DockState :=
  { notebook_path := Option.none
    notebook_data := some sampleNotebook
    cell_widgets :=
      [{ cell_type := "code", source := "x = 1", output := Option.none, index := 0 },
       { cell_type := "code", source := "x", output := Option.none, index := 1 }]
    nsd := []
    status := ""
    is_dirty := false
    messages := [] }

/-- An import environment where every import block succeeds. -/
def envAll : ImportEnv :=
  { qgisOk := true, processingOk := true, commonOk := true,
    numpyOk := true, pandasOk := true }

/-! # Theorems -/

theorem NS.get_set (ns : NS) (k k' : String) (v : PyVal) :
    (ns.set k v).get k' = if k = k' then some v else ns.get k' := by
  induction ns with
  | nil => simp [NS.set, NS.get]
  | cons hd tl ih =>
      obtain ⟨k₀, v₀⟩ := hd
      by_cases h0 : k₀ = k
      · subst h0
        by_cases h1 : k₀ = k' <;> simp [NS.set, NS.get, h1]
      · by_cases h1 : k₀ = k' <;>
          simp_all [NS.set, NS.get, h0, h1]
        subst h1
        rw [if_neg (fun h : k = k₀ => absurd h.symm h0)]

/-- The variant with streams computes the same triple and namespace as
`executeCodeSync`. -/
theorem executeCodeSyncFull_res (code : Code) (ns : NS) (sys : SysState) :
    ((executeCodeSyncFull code ns sys).res, (executeCodeSyncFull code ns sys).ns2)
      = executeCodeSync code ns := by
  unfold executeCodeSyncFull executeCodeSync
  cases code.evalResult ns with
  | value v ns' out err => rfl
  | syntaxError => cases code.execResult ns <;> rfl
  | exn tb ns' out err => rfl

theorem splitNLAux_ne_nil (cs acc : List Char) : splitNLAux cs acc ≠ [] := by
  induction cs generalizing acc with
  | nil => simp [splitNLAux]
  | cons c cs ih =>
      rw [splitNLAux]
      by_cases h : c = '\n' <;> simp [h, ih]

theorem markLinesC_cons (l : List Char) (ls : List (List Char)) (h : ls ≠ []) :
    markLinesC (l :: ls) = (l ++ ['\n']) :: markLinesC ls := by
  cases ls with
  | nil => exact absurd rfl h
  | cons a as => rfl

theorem markLinesC_splitNLAux_join (cs : List Char) :
    ∀ acc, (markLinesC (splitNLAux cs acc)).flatten = acc.reverse ++ cs := by
  induction cs with
  | nil => intro acc; simp [splitNLAux, markLinesC]
  | cons c cs ih =>
      intro acc
      by_cases h : c = '\n'
      · subst h
        rw [splitNLAux, if_pos rfl,
          markLinesC_cons _ _ (splitNLAux_ne_nil cs [])]
        simp [ih []]
      · rw [splitNLAux, if_neg h, ih (c :: acc)]
        simp

theorem markLines_map_mk (xs : List (List Char)) :
    markLines (xs.map String.mk) = (markLinesC xs).map String.mk := by
  induction xs with
  | nil => rfl
  | cons l ls ih =>
      cases ls with
      | nil => rfl
      | cons a as =>
          show (String.mk l ++ "\n") :: markLines ((a :: as).map String.mk)
            = (String.mk (l ++ ['\n'])) :: (markLinesC (a :: as)).map String.mk
          rw [ih]
          rfl

theorem pyJoin_map_mk (xs : List (List Char)) :
    pyJoin (xs.map String.mk) = String.mk xs.flatten := by
  induction xs with
  | nil => rfl
  | cons l ls ih =>
      show String.mk l ++ pyJoin (ls.map String.mk) = _
      rw [ih]
      rfl

/-- Joining back the line list `_save_to_path` stores reproduces the
source string exactly. -/
theorem pyJoin_saveSourceLines (s : String) :
    pyJoin (saveSourceLines s) = s := by
  unfold saveSourceLines pySplitNL
  rw [markLines_map_mk, pyJoin_map_mk, markLinesC_splitNLAux_join]
  cases s
  rfl

/-- Loading a saved source yields the original with trailing newline
characters stripped (the widget's `rstrip("\n")`). -/
theorem loadSource_saveSourceLines (s : String) :
    loadSource (saveSourceLines s) = pyRstripNL s := by
  rw [loadSource, pyJoin_saveSourceLines]

/-- Every stored line but the last ends in a newline. -/
theorem markLines_dropLast (xs : List String) :
    ∀ l ∈ (markLines xs).dropLast, ∃ l', l = l' ++ "\n" := by
  induction xs with
  | nil => simp [markLines]
  | cons a ls ih =>
      cases ls with
      | nil => simp [markLines]
      | cons b bs =>
          intro l hl
          have hne : markLines (b :: bs) ≠ [] := by
            cases bs <;> simp [markLines]
          rw [show markLines (a :: b :: bs)
                = (a ++ "\n") :: markLines (b :: bs) from rfl,
            List.dropLast_cons_of_ne_nil hne] at hl
          rcases List.mem_cons.mp hl with hl | hl
          · exact ⟨a, hl⟩
          · exact ih l hl

theorem NS.get_nsSetAll_of_not_mem (ns : NS) (kvs : List (String × PyVal))
    (k : String) (hk : k ∉ kvs.map Prod.fst) :
    (nsSetAll ns kvs).get k = ns.get k := by
  induction kvs generalizing ns with
  | nil => rfl
  | cons kv rest ih =>
      have hk1 : kv.1 ≠ k := by
        intro h
        exact hk (by simp [← h])
      have hk2 : k ∉ rest.map Prod.fst := by
        intro h
        exact hk (by simp [h])
      show (nsSetAll (ns.set kv.1 kv.2) rest).get k = ns.get k
      rw [ih _ hk2, NS.get_set, if_neg hk1]

theorem qgisStep_get (env : ImportEnv) (ns : NS) (k : String)
    (hk : k ∉ qgisBindings.map Prod.fst) :
    (qgisStep env ns).get k = ns.get k := by
  unfold qgisStep
  cases env.qgisOk <;>
    simp [NS.get_nsSetAll_of_not_mem _ _ _ hk]

theorem processingStep_get (env : ImportEnv) (ns : NS) (k : String)
    (hk : "processing" ≠ k) :
    (processingStep env ns).get k = ns.get k := by
  unfold processingStep
  cases env.processingOk <;>
    simp [NS.get_set, if_neg hk]

theorem commonStep_get (env : ImportEnv) (ns : NS) (k : String)
    (hk : k ∉ commonBindings.map Prod.fst) :
    (commonStep env ns).get k = ns.get k := by
  unfold commonStep
  cases env.commonOk <;>
    simp [NS.get_nsSetAll_of_not_mem _ _ _ hk]

theorem numpyStep_get (env : ImportEnv) (ns : NS) (k : String)
    (h1 : "np" ≠ k) (h2 : "numpy" ≠ k) :
    (numpyStep env ns).get k = ns.get k := by
  have hk : k ∉ ([("np", PyVal.obj "numpy"),
      ("numpy", PyVal.obj "numpy")] : List (String × PyVal)).map Prod.fst := by
    simp only [List.map, List.mem_cons, List.not_mem_nil]
    rintro (h | h | h)
    · exact h1 h.symm
    · exact h2 h.symm
    · exact h
  unfold numpyStep
  cases env.numpyOk <;>
    simp [NS.get_nsSetAll_of_not_mem _ _ _ hk]

theorem pandasStep_get (env : ImportEnv) (ns : NS) (k : String)
    (h1 : "pd" ≠ k) (h2 : "pandas" ≠ k) :
    (pandasStep env ns).get k = ns.get k := by
  have hk : k ∉ ([("pd", PyVal.obj "pandas"),
      ("pandas", PyVal.obj "pandas")] : List (String × PyVal)).map Prod.fst := by
    simp only [List.map, List.mem_cons, List.not_mem_nil]
    rintro (h | h | h)
    · exact h1 h.symm
    · exact h2 h.symm
    · exact h
  unfold pandasStep
  cases env.pandasOk <;>
    simp [NS.get_nsSetAll_of_not_mem _ _ _ hk]

/-- A name no import block installs reads through `_setup_namespace`
unchanged. -/
theorem setupNamespace_get_of_not_installed (env : ImportEnv) (ns : NS)
    (k : String) (hk : k ∉ installedNames) :
    (setupNamespace env ns).get k = ns.get k := by
  have hmem : k ∉ qgisBindings.map Prod.fst ∧ ("processing" ≠ k)
      ∧ k ∉ commonBindings.map Prod.fst
      ∧ ("np" ≠ k) ∧ ("numpy" ≠ k) ∧ ("pd" ≠ k) ∧ ("pandas" ≠ k) := by
    refine ⟨fun h => hk ?_, fun h => hk ?_, fun h => hk ?_,
      fun h => hk ?_, fun h => hk ?_, fun h => hk ?_, fun h => hk ?_⟩ <;>
      simp_all [installedNames]
  obtain ⟨hq, hp, hc, h4, h5, h6, h7⟩ := hmem
  unfold setupNamespace
  rw [pandasStep_get _ _ _ h6 h7, numpyStep_get _ _ _ h4 h5,
    commonStep_get _ _ _ hc, processingStep_get _ _ _ hp,
    qgisStep_get _ _ _ hq]

theorem insertIdx_length_self {α : Type} (l : List α) (x : α) :
    l.insertIdx l.length x = l ++ [x] := by
  induction l with
  | nil => rfl
  | cons a as ih => simp [List.insertIdx_succ_cons, ih]

theorem renderFold_widgets (cells : List CellData) :
    ∀ (j : Nat) (st : DockState), st.cell_widgets.length = j →
      ((cells.enumFrom j).foldl (fun s ic => createCellWidget s ic.2 ic.1) st).cell_widgets
        = st.cell_widgets ++ (cells.enumFrom j).map (fun ic => mkCellWidget ic.2 ic.1) := by
  induction cells with
  | nil => intro j st _; simp [List.enumFrom]
  | cons cd rest ih =>
      intro j st h
      have h1 : (createCellWidget st cd j).cell_widgets
          = st.cell_widgets ++ [mkCellWidget cd j] := by
        show st.cell_widgets.insertIdx j (mkCellWidget cd j) = _
        rw [← h, insertIdx_length_self]
      have h2 : (createCellWidget st cd j).cell_widgets.length = j + 1 := by
        rw [h1]
        simp [h]
      show ((rest.enumFrom (j + 1)).foldl
          (fun s ic => createCellWidget s ic.2 ic.1) (createCellWidget st cd j)).cell_widgets = _
      rw [ih (j + 1) _ h2, h1]
      simp [List.enumFrom]

theorem renderFold_preserves (pairs : List (Nat × CellData)) (st : DockState) :
    ((pairs.foldl (fun s ic => createCellWidget s ic.2 ic.1) st).notebook_path
        = st.notebook_path)
    ∧ ((pairs.foldl (fun s ic => createCellWidget s ic.2 ic.1) st).notebook_data
        = st.notebook_data)
    ∧ ((pairs.foldl (fun s ic => createCellWidget s ic.2 ic.1) st).nsd = st.nsd)
    ∧ ((pairs.foldl (fun s ic => createCellWidget s ic.2 ic.1) st).status = st.status)
    ∧ ((pairs.foldl (fun s ic => createCellWidget s ic.2 ic.1) st).is_dirty
        = st.is_dirty)
    ∧ ((pairs.foldl (fun s ic => createCellWidget s ic.2 ic.1) st).messages
        = st.messages) := by
  induction pairs generalizing st with
  | nil => exact ⟨rfl, rfl, rfl, rfl, rfl, rfl⟩
  | cons p ps ih => exact ih (createCellWidget st p.2 p.1)

/-- The widget list `_render_notebook` produces for a loaded document. -/
theorem renderNotebook_cells (st : DockState) (nb : Notebook)
    (hnb : st.notebook_data = some nb) :
    (renderNotebook st).cell_widgets
      = nb.cells.enum.map (fun ic => mkCellWidget ic.2 ic.1) := by
  unfold renderNotebook clearCells
  simp only [hnb]
  rw [show nb.cells.enum = nb.cells.enumFrom 0 from rfl,
    renderFold_widgets nb.cells 0
      { st with notebook_data := some nb, cell_widgets := [] } rfl]
  rfl

theorem renderNotebook_status (st : DockState) (nb : Notebook)
    (hnb : st.notebook_data = some nb) :
    (renderNotebook st).status = "Loaded " ++ toString nb.cells.length ++ " cells" := by
  unfold renderNotebook clearCells
  simp only [hnb]

theorem renderNotebook_nsd (st : DockState) :
    (renderNotebook st).nsd = st.nsd := by
  unfold renderNotebook clearCells
  cases h : st.notebook_data with
  | none => simp only [h]
  | some nb =>
      simp only [h]
      exact (renderFold_preserves _ _).2.2.1

/-- When any guard of `_execute_cell` fires, the call leaves the state
untouched. -/
theorem executeCell_noop_of_no_run (sem : String → Code) (st : DockState)
    (i : Nat) (h : cellRunNS st i = Option.none) :
    executeCell sem st i = st := by
  simp only [cellRunNS] at h
  simp only [executeCell]
  by_cases hlt : i < st.cell_widgets.length
  · rw [dif_pos hlt] at h ⊢
    by_cases hc : (st.cell_widgets.get ⟨i, hlt⟩).cell_type = "code"
    · rw [if_pos hc] at h ⊢
      by_cases hs : pyStrip (st.cell_widgets.get ⟨i, hlt⟩).source = ""
      · rw [if_pos hs]
      · rw [if_neg hs] at h
        exact absurd h (by simp)
    · rw [if_neg hc]
  · rw [dif_neg hlt]

/-- When the guards pass, `cellRunNS` returns exactly `self.namespace`. -/
theorem cellRunNS_some (st : DockState) (j : Nat) (ns' : NS)
    (h : cellRunNS st j = some ns') : ns' = st.nsd := by
  simp only [cellRunNS] at h
  by_cases hlt : j < st.cell_widgets.length
  · rw [dif_pos hlt] at h
    by_cases hc : (st.cell_widgets.get ⟨j, hlt⟩).cell_type = "code"
    · rw [if_pos hc] at h
      by_cases hs : pyStrip (st.cell_widgets.get ⟨j, hlt⟩).source = ""
      · rw [if_pos hs] at h
        exact absurd h (by simp)
      · rw [if_neg hs] at h
        exact (Option.some.inj h).symm
    · rw [if_neg hc] at h
      exact absurd h (by simp)
  · rw [dif_neg hlt] at h
    exact absurd h (by simp)

theorem updateCellIndices_getElem (ws : List CellWidget) (j : Nat) :
    (updateCellIndices ws)[j]? = (ws[j]?).map (fun w => { w with index := j }) := by
  unfold updateCellIndices
  rw [List.getElem?_map, List.getElem?_enum]
  cases ws[j]? <;> rfl

theorem updateCellIndices_length (ws : List CellWidget) :
    (updateCellIndices ws).length = ws.length := by
  unfold updateCellIndices
  simp

/-- `_setup_namespace` never touches the two dunder seeds. -/
theorem setupNamespace_get_dunders (env : ImportEnv) :
    (setupNamespace env baseNamespace).get "__name__" = some (.str "__main__")
    ∧ (setupNamespace env baseNamespace).get "__doc__" = some PyVal.none := by
  constructor <;>
  · unfold setupNamespace
    rw [pandasStep_get _ _ _ (by decide) (by decide),
      numpyStep_get _ _ _ (by decide) (by decide),
      commonStep_get _ _ _ (by decide),
      processingStep_get _ _ _ (by decide),
      qgisStep_get _ _ _ (by decide)]
    rfl

/-- `_new_notebook` rebinds `self.namespace` to the freshly populated
base dict, independently of the previous namespace. -/
theorem newNotebook_nsd (env : ImportEnv) (st : DockState) :
    (newNotebook env st true).nsd = setupNamespace env baseNamespace := by
  unfold newNotebook
  rw [if_neg (by simp)]
  show (renderNotebook _).nsd = _
  rw [renderNotebook_nsd]

/-! # Claim theorems -/

/-- C1: `_execute_code_sync` first evaluates the code string with `eval`
against the shared namespace and, when the evaluation yields a value,
returns that value as the result; exactly when `eval` raises
`SyntaxError` the string is instead executed with `exec` against the
same namespace (otherwise `exec` plays no part: the outcome does not
depend on the string's statement semantics) and the result is `None`. -/
theorem claim_C1_eval_exec_dispatch (code : Code) (ns : NS) :
    (∀ v ns' out err, code.evalResult ns = .value v ns' out err →
        executeCodeSync code ns = (⟨some v, out, err⟩, ns'))
    ∧ (code.evalResult ns ≠ .syntaxError →
        ∀ code' : Code, code'.evalResult = code.evalResult →
          executeCodeSync code' ns = executeCodeSync code ns)
    ∧ (code.evalResult ns = .syntaxError →
        (executeCodeSync code ns).1.result = Option.none
        ∧ ∀ ns' out err, code.execResult ns = .ok ns' out err →
            executeCodeSync code ns = (⟨Option.none, out, err⟩, ns')) := by
  refine ⟨?_, ?_, ?_⟩
  · intro v ns' out err h
    simp [executeCodeSync, h]
  · intro hne code' hsem
    unfold executeCodeSync
    rw [hsem]
    cases h : code.evalResult ns with
    | value v ns' out err => rfl
    | syntaxError => exact absurd h hne
    | exn tb ns' out err => rfl
  · intro h
    refine ⟨?_, ?_⟩
    · unfold executeCodeSync
      rw [h]
      cases code.execResult ns <;> rfl
    · intro ns' out err hx
      simp [executeCodeSync, h, hx]

/-- Witness for C1 at the expression string `"3"`. -/
theorem claim_C1_witness :
    executeCodeSync codeExprLit [] = (⟨some (.int 3), "", ""⟩, []) :=
  (claim_C1_eval_exec_dispatch codeExprLit []).1 (.int 3) [] "" "" rfl

/-- C2 as stated is false: code that prints and then raises gets its
printed text discarded — the returned stdout is empty and the returned
stderr is the formatted traceback, not the text written to the error
stream. -/
theorem claim_C2_counterexample :
    ¬ ((executeCodeSync codePrintRaise []).1.stdout = writtenOut codePrintRaise []
       ∧ (executeCodeSync codePrintRaise []).1.stderr = writtenErr codePrintRaise []) := by
  decide

/-- C2 amended: when the code completes without an uncaught exception,
`_execute_code_sync` returns exactly the texts written to the capture
streams; when it raises, it returns an empty stdout and the exception's
formatted traceback as stderr, discarding the captured texts. -/
theorem claim_C2_capture_amended (code : Code) (ns : NS) :
    (∀ v ns' out err, code.evalResult ns = .value v ns' out err →
        (executeCodeSync code ns).1.stdout = out
        ∧ (executeCodeSync code ns).1.stderr = err)
    ∧ (code.evalResult ns = .syntaxError →
        ∀ ns' out err, code.execResult ns = .ok ns' out err →
          (executeCodeSync code ns).1.stdout = out
          ∧ (executeCodeSync code ns).1.stderr = err)
    ∧ (∀ tb ns' out err, code.evalResult ns = .exn tb ns' out err →
        (executeCodeSync code ns).1.stdout = ""
        ∧ (executeCodeSync code ns).1.stderr = tb)
    ∧ (code.evalResult ns = .syntaxError →
        ∀ tb ns' out err, code.execResult ns = .exn tb ns' out err →
          (executeCodeSync code ns).1.stdout = ""
          ∧ (executeCodeSync code ns).1.stderr = tb) := by
  refine ⟨?_, ?_, ?_, ?_⟩
  · intro v ns' out err h
    simp [executeCodeSync, h]
  · intro h ns' out err hx
    simp [executeCodeSync, h, hx]
  · intro tb ns' out err h
    simp [executeCodeSync, h]
  · intro h tb ns' out err hx
    simp [executeCodeSync, h, hx]

/-- Witness for the amended C2 at the expression string `"3"`. -/
theorem claim_C2_witness :
    (executeCodeSync codeExprLit []).1.stdout = ""
    ∧ (executeCodeSync codeExprLit []).1.stderr = "" :=
  (claim_C2_capture_amended codeExprLit []).1 (.int 3) [] "" "" rfl

/-- C3: during every call to `_execute_code_sync` the global stream
slots hold fresh `StringIO` capture buffers, and after the call — on
success and on exception alike — the original streams are restored. -/
theorem claim_C3_stream_scoping (code : Code) (ns : NS) (sys : SysState) :
    (executeCodeSyncFull code ns sys).sysAfter = sys
    ∧ (∃ o e, (executeCodeSyncFull code ns sys).sysDuring
        = ⟨Stream.buffer o, Stream.buffer e⟩) := by
  unfold executeCodeSyncFull
  cases code.evalResult ns with
  | value v ns' out err => exact ⟨rfl, out, err, rfl⟩
  | syntaxError =>
      cases code.execResult ns with
      | ok ns' out err => exact ⟨rfl, out, err, rfl⟩
      | exn tb ns' out err => exact ⟨rfl, out, err, rfl⟩
  | exn tb ns' out err => exact ⟨rfl, out, err, rfl⟩

/-- C5: loading renders exactly one cell widget per entry of the
document's cells list, in order — the widget at position `i` is built
from `cells[i]` — and the status reports the list's length. -/
theorem claim_C5_render_one_widget_per_cell (st : DockState) (nb : Notebook)
    (hnb : st.notebook_data = some nb) :
    (renderNotebook st).cell_widgets.length = nb.cells.length
    ∧ (∀ i : Nat, (renderNotebook st).cell_widgets[i]?
        = (nb.cells[i]?).map (fun cd => mkCellWidget cd i))
    ∧ (renderNotebook st).status
        = "Loaded " ++ toString nb.cells.length ++ " cells" := by
  have hw := renderNotebook_cells st nb hnb
  refine ⟨?_, ?_, renderNotebook_status st nb hnb⟩
  · rw [hw]
    simp
  · intro i
    rw [hw, List.getElem?_map, List.getElem?_enum]
    cases nb.cells[i]? <;> rfl

/-- Witness for C5 at the two-cell sample document. -/
theorem claim_C5_witness :
    (renderNotebook sampleState).cell_widgets.length = sampleNotebook.cells.length
    ∧ (renderNotebook sampleState).cell_widgets[0]?
        = some (mkCellWidget { cell_type := "markdown", source := .str "# Title" } 0) :=
  ⟨(claim_C5_render_one_widget_per_cell sampleState sampleNotebook rfl).1,
   ((claim_C5_render_one_widget_per_cell sampleState sampleNotebook rfl).2.1 0).trans
     (by decide)⟩

/-- C6: when the opened file is not valid JSON, `_load_notebook` shows
an "Invalid notebook format" error and leaves `notebook_path`,
`notebook_data` and the cell widgets untouched. -/
theorem claim_C6_invalid_json_atomic (st : DockState) (path msg : String) :
    (loadNotebook st path (.invalidJson msg)).notebook_path = st.notebook_path
    ∧ (loadNotebook st path (.invalidJson msg)).notebook_data = st.notebook_data
    ∧ (loadNotebook st path (.invalidJson msg)).cell_widgets = st.cell_widgets
    ∧ (loadNotebook st path (.invalidJson msg)).nsd = st.nsd
    ∧ (loadNotebook st path (.invalidJson msg)).messages
        = st.messages ++ ["Invalid notebook format:\n" ++ msg] :=
  ⟨rfl, rfl, rfl, rfl, rfl⟩

/-- C7 as stated is false: a cell source ending in a newline is not
reproduced by the load path, whose trailing-newline strip removes it. -/
theorem claim_C7_counterexample :
    loadSource (saveSourceLines "a\n") ≠ "a\n" := by
  decide

/-- C7 amended: `_save_to_path` splits the source into lines, each ending
in a newline except the last; joining that list back reproduces the
source exactly, and the loaded cell widget holds the join with trailing
newlines stripped — so the round trip preserves the source precisely
when it does not end in a newline. -/
theorem claim_C7_save_load_roundtrip (s : String) :
    (∀ l ∈ (saveSourceLines s).dropLast, ∃ l', l = l' ++ "\n")
    ∧ pyJoin (saveSourceLines s) = s
    ∧ loadSource (saveSourceLines s) = pyRstripNL s
    ∧ (pyRstripNL s = s → loadSource (saveSourceLines s) = s) := by
  refine ⟨markLines_dropLast _, pyJoin_saveSourceLines s,
    loadSource_saveSourceLines s, ?_⟩
  intro h
  rw [loadSource_saveSourceLines s, h]

/-- Witness for the amended C7 at the newline-free source `"ab"`. -/
theorem claim_C7_witness :
    pyRstripNL "ab" = "ab" ∧ loadSource (saveSourceLines "ab") = "ab" :=
  ⟨by decide, (claim_C7_save_load_roundtrip "ab").2.2.2 (by decide)⟩

/-- C4: cell executions share one namespace: whatever binding an
execution leaves in `self.namespace` is present in the namespace any
later execution runs against, and only `_new_notebook` replaces the
mapping with a fresh one. -/
theorem claim_C4_shared_namespace (sem : String → Code) (st : DockState)
    (i j : Nat) (k : String) (v : PyVal)
    (hbound : (executeCell sem st i).nsd.get k = some v) :
    (∀ ns', cellRunNS (executeCell sem st i) j = some ns' →
        ns' = (executeCell sem st i).nsd ∧ ns'.get k = some v)
    ∧ (∀ env : ImportEnv,
        (newNotebook env (executeCell sem st i) true).nsd
          = setupNamespace env baseNamespace) := by
  refine ⟨?_, fun env => newNotebook_nsd env _⟩
  intro ns' h
  have he := cellRunNS_some _ _ _ h
  exact ⟨he, he ▸ hbound⟩

/-- Witness for C4: after running `"x = 1"` in cell 0, cell 1 executes
against a namespace in which `x` is bound. -/
theorem claim_C4_witness :
    ∃ ns', cellRunNS (executeCell sampleSem twoCellState 0) 1 = some ns'
      ∧ ns'.get "x" = some (.int 1) :=
  ⟨(executeCell sampleSem twoCellState 0).nsd, by decide,
   ((claim_C4_shared_namespace sampleSem twoCellState 0 1 "x" (.int 1) (by decide)).1
      ((executeCell sampleSem twoCellState 0).nsd) (by decide)).2⟩

/-- C8: `_execute_cell` is a no-op at its boundary: an out-of-range
index, a non-code cell or a blank source returns without running any
code (the outcome does not depend on the Python semantics) and without
changing the state — cells, outputs and namespace included. -/
theorem claim_C8_execute_cell_guards (sem : String → Code) (st : DockState)
    (i : Nat) :
    (st.cell_widgets.length ≤ i → executeCell sem st i = st)
    ∧ (∀ h : i < st.cell_widgets.length,
        (st.cell_widgets.get ⟨i, h⟩).cell_type ≠ "code" →
          executeCell sem st i = st)
    ∧ (∀ h : i < st.cell_widgets.length,
        pyStrip (st.cell_widgets.get ⟨i, h⟩).source = "" →
          executeCell sem st i = st)
    ∧ (cellRunNS st i = Option.none →
        ∀ sem' : String → Code, executeCell sem' st i = executeCell sem st i) := by
  refine ⟨?_, ?_, ?_, ?_⟩
  · intro hle
    refine executeCell_noop_of_no_run sem st i ?_
    simp only [cellRunNS]
    rw [dif_neg (Nat.not_lt.mpr hle)]
  · intro h hne
    refine executeCell_noop_of_no_run sem st i ?_
    simp only [cellRunNS]
    rw [dif_pos h, if_neg hne]
  · intro h hs
    refine executeCell_noop_of_no_run sem st i ?_
    simp only [cellRunNS]
    rw [dif_pos h]
    by_cases hc : (st.cell_widgets.get ⟨i, h⟩).cell_type = "code"
    · rw [if_pos hc, if_pos hs]
    · rw [if_neg hc]
  · intro hnone sem'
    rw [executeCell_noop_of_no_run sem st i hnone,
      executeCell_noop_of_no_run sem' st i hnone]

/-- Witness for C8: an out-of-range index leaves the state unchanged. -/
theorem claim_C8_witness :
    executeCell sampleSem twoCellState 5 = twoCellState :=
  (claim_C8_execute_cell_guards sampleSem twoCellState 5).1 (by decide)

/-- C9: `_delete_cell` refuses to delete when at most one widget exists
(or no document is loaded), warning and changing nothing; with a
confirmed in-range delete it removes exactly the addressed cell and
renumbers the remaining widgets consecutively (`index = j`, shown as
`[j + 1]`), so at least one cell always remains. -/
theorem claim_C9_delete_keeps_one_cell (st : DockState) (i : Nat)
    (confirmYes : Bool) :
    ((st.notebook_data = Option.none ∨ st.cell_widgets.length ≤ 1) →
        (deleteCell st i confirmYes).cell_widgets = st.cell_widgets
        ∧ (deleteCell st i confirmYes).notebook_data = st.notebook_data
        ∧ (deleteCell st i confirmYes).messages
            = st.messages ++ ["Cannot delete the last cell."])
    ∧ (st.notebook_data ≠ Option.none → 2 ≤ st.cell_widgets.length →
        confirmYes = true → i < st.cell_widgets.length →
        (deleteCell st i confirmYes).cell_widgets.length
            = st.cell_widgets.length - 1
        ∧ 1 ≤ (deleteCell st i confirmYes).cell_widgets.length
        ∧ (∀ j : Nat, (deleteCell st i confirmYes).cell_widgets[j]?
            = ((st.cell_widgets.eraseIdx i)[j]?).map
                (fun w => { w with index := j }))) := by
  constructor
  · intro hcond
    simp [deleteCell, if_pos hcond]
  · intro hnd hlen hconf hidx
    have hcond : ¬ (st.notebook_data = Option.none ∨ st.cell_widgets.length ≤ 1) := by
      push_neg
      exact ⟨hnd, by omega⟩
    have hws : (deleteCell st i confirmYes).cell_widgets
        = updateCellIndices (st.cell_widgets.eraseIdx i) := by
      simp only [deleteCell, if_neg hcond, hconf]
      rfl
    have hlen' : (deleteCell st i confirmYes).cell_widgets.length
        = st.cell_widgets.length - 1 := by
      rw [hws, updateCellIndices_length, List.length_eraseIdx]
      simp [hidx]
    refine ⟨hlen', by omega, ?_⟩
    intro j
    rw [hws, updateCellIndices_getElem]

/-- Witness for C9: deleting cell 0 of the two-cell state leaves one
cell. -/
theorem claim_C9_witness :
    (deleteCell twoCellState 0 true).cell_widgets.length
      = twoCellState.cell_widgets.length - 1 :=
  ((claim_C9_delete_keeps_one_cell twoCellState 0 true).2
    (by decide) (by decide) rfl (by decide)).1

/-- C10: `_new_notebook` resets the execution namespace: the new mapping
is the freshly populated base dict — it holds `__name__` bound to
`"__main__"`, `__doc__` bound to `None`, and only the names
`_setup_namespace` installs, so no binding of the previous session
survives. -/
theorem claim_C10_new_notebook_resets_namespace (env : ImportEnv) (st : DockState) :
    ((newNotebook env st true).nsd = setupNamespace env baseNamespace)
    ∧ (newNotebook env st true).nsd.get "__name__" = some (.str "__main__")
    ∧ (newNotebook env st true).nsd.get "__doc__" = some PyVal.none
    ∧ (∀ k : String, k ∉ installedNames →
        (newNotebook env st true).nsd.get k = Option.none) := by
  have hns := newNotebook_nsd env st
  refine ⟨hns, ?_, ?_, ?_⟩
  · rw [hns]
    exact (setupNamespace_get_dunders env).1
  · rw [hns]
    exact (setupNamespace_get_dunders env).2
  · intro k hk
    have h1 : "__name__" ≠ k := by
      intro h
      exact hk (h ▸ (by decide : "__name__" ∈ installedNames))
    have h2 : "__doc__" ≠ k := by
      intro h
      exact hk (h ▸ (by decide : "__doc__" ∈ installedNames))
    rw [hns, setupNamespace_get_of_not_installed env _ k hk]
    simp [baseNamespace, NS.get, h1, h2]

/-- Witness for C10: a user binding such as `"leftover"` is absent after
the reset. -/
theorem claim_C10_witness :
    (newNotebook envAll sampleState true).nsd.get "leftover" = Option.none :=
  (claim_C10_new_notebook_resets_namespace envAll sampleState).2.2.2
    "leftover" (by decide)

end QgisNotebook
